import Mathlib

/-!
Verification of the wait-status decoder in `src/sys/wait.rs` of carllerche/nix-rust.

The raw status word is an `i32`; we embed it as an unbounded `Int` and translate the
source's C-style bit operations into modular arithmetic, which agrees with two's
complement on the operations the source uses:

* `status & 0x7F`  = `s % 128`   (Lean's `%` on `Int` is `emod`, whose result is in
  `[0, 128)` for every `s`, matching the low 7 bits of the two's-complement word);
* `status & 0xFF`  = `s % 256`;
* `(status & 0xFF00) >> 8` = `s % 65536 / 256` (Lean's `/` on `Int` is `ediv`, which
  is floor division for a positive divisor, matching an arithmetic shift);
* `status >> k` (arithmetic shift of an `i32`) = `s / 2 ^ k`;
* `(status & 0x80) != 0` = `128 ≤ s % 256`;
* `x as i8` = two's-complement reinterpretation of the low byte, `asI8` below.

Rust panics — `assert!` failure and `.unwrap()` on a failed lookup — do not return;
we model them as the `Except.error` channel of a `Panic` value.  This channel models
an abort, not an ordinary recoverable error: in the source, `decode` returns a plain
`WaitStatus` and has no error channel at all.
-/

namespace NixWait

/-- Process identifier (`Pid` wraps a `pid_t`, an `i32`); the decoder only carries
it through, so an `Int` suffices. -/
abbrev Pid := Int

/-- Modelled from the spec: the signal-number-to-symbolic-name resolver
(`sys::signal::Signal` lives outside `src/`; only its callers are in the sources).
A signal value is its signal number. -/
structure Signal where
  num : Int
deriving DecidableEq

/-- Modelled from the spec: `Signal::from_c_int` "fails if the kernel-reported
signal number is unrecognized", which "can legitimately occur on kernels newer
than the decoder's signal table".  We model the recognized table as the classic
POSIX signal numbers `1 ..= 31`. -/
def Signal.from_c_int (n : Int) : Option Signal :=
  if 1 ≤ n ∧ n ≤ 31 then some ⟨n⟩ else none

/-- Modelled from the spec: the continue-signal number (`SIGCONT`) on the Darwin
family, where it is signal 19.  It is only consulted by the Darwin decoder. -/
def SIGCONT : Signal := ⟨19⟩

/-- A Rust panic: `assert!` failure or `.unwrap()` called on a failed result.
Both abort the program; neither is an ordinary error value returned to the
caller. -/
inductive Panic where
  | assertionFailure
  | unwrapFailed
deriving DecidableEq

/-- The result type `WaitStatus` from the source, with `i8` exit codes and `c_int` auxiliary
values embedded as `Int`. -/
inductive WaitStatus where
  | Exited (pid : Pid) (code : Int)
  | Signaled (pid : Pid) (sig : Signal) (core : Bool)
  | Stopped (pid : Pid) (sig : Signal)
  | PtraceEvent (pid : Pid) (sig : Signal) (aux : Int)
  | Continued (pid : Pid)
  | StillAlive
deriving DecidableEq

/-- Rust `x as i8`: reinterpret the low byte of `x` in two's complement, giving a value
in `[-128, 127]`. -/
def asI8 (x : Int) : Int :=
  if x % 256 < 128 then x % 256 else x % 256 - 256

/-- Rust `.unwrap()` on the resolver's result: a failed lookup panics. -/
def unwrapSignal (o : Option Signal) : Except Panic Signal :=
  match o with
  | some sig => .ok sig
  | none => .error .unwrapFailed

/-! ## The Linux/Android `status` module (lines 66–107) -/

namespace linux

/-- Source: `(status & 0x7F) == 0` -/
def exited (s : Int) : Bool := s % 128 == 0

/-- Source: `((status & 0xFF00) >> 8) as i8` -/
def exit_status (s : Int) : Int := asI8 (s % 65536 / 256)

/-- Source: `((((status & 0x7f) + 1) as i8) >> 1) > 0` — the arithmetic shift of an `i8`
is floor division by 2, which for a positive divisor is Lean's `/` on `Int`. -/
def signaled (s : Int) : Bool := decide (0 < asI8 (s % 128 + 1) / 2)

/-- Source: `Signal::from_c_int(status & 0x7f).unwrap()` -/
def term_signal (s : Int) : Except Panic Signal :=
  unwrapSignal (Signal.from_c_int (s % 128))

/-- Source: `(status & 0x80) != 0` -/
def dumped_core (s : Int) : Bool := decide (128 ≤ s % 256)

/-- Source: `(status & 0xff) == 0x7f` -/
def stopped (s : Int) : Bool := s % 256 == 127

/-- Source: `Signal::from_c_int((status & 0xFF00) >> 8).unwrap()` -/
def stop_signal (s : Int) : Except Panic Signal :=
  unwrapSignal (Signal.from_c_int (s % 65536 / 256))

/-- Source: `(status >> 16) as c_int` — an arithmetic shift of the `i32`, already a
`c_int`. -/
def stop_additional (s : Int) : Int := s / 65536

/-- Source: `status == 0xFFFF` -/
def continued (s : Int) : Bool := s == 65535

/-- The Linux/Android `decode_stopped` from the `cfg_if!` in `decode`
(lines 209–216): zero auxiliary value gives `Stopped`, nonzero gives
`PtraceEvent`. -/
def decode_stopped (pid : Pid) (s : Int) : Except Panic WaitStatus :=
  if stop_additional s = 0 then
    (stop_signal s).map fun sg => .Stopped pid sg
  else
    (stop_signal s).map fun sg => .PtraceEvent pid sg (stop_additional s)

/-- The function `decode` (lines 201–228) instantiated with the Linux/Android `status`
module: `exited`, then `signaled`, then `stopped`, and finally
`assert!(continued)` before returning `Continued`. -/
def decode (pid : Pid) (s : Int) : Except Panic WaitStatus :=
  if exited s then
    .ok (.Exited pid (exit_status s))
  else if signaled s then
    (term_signal s).map fun sg => .Signaled pid sg (dumped_core s)
  else if stopped s then
    decode_stopped pid s
  else if continued s then
    .ok (.Continued pid)
  else
    .error .assertionFailure

end linux

/-! ## The Darwin (macos/ios) `status` module (lines 109–152) -/

namespace darwin

/-- Source: `status & 0x7F` -/
def wstatus (s : Int) : Int := s % 128

/-- Source: `((status >> 8) & 0xFF) as i8` -/
def exit_status (s : Int) : Int := asI8 (s / 256 % 256)

/-- Source: `Signal::from_c_int(status >> 8).unwrap()` — note the shift is unmasked. -/
def stop_signal (s : Int) : Except Panic Signal :=
  unwrapSignal (Signal.from_c_int (s / 256))

/-- Source: `wstatus(status) == WSTOPPED && stop_signal(status) == SIGCONT`, with the
short-circuit `&&` evaluating `stop_signal` (which may panic) only when the
discriminant matches `WSTOPPED = 0x7f`. -/
def continued (s : Int) : Except Panic Bool :=
  if wstatus s = 127 then (stop_signal s).map fun sg => decide (sg = SIGCONT)
  else .ok false

/-- Source: `wstatus(status) == WSTOPPED && stop_signal(status) != SIGCONT` -/
def stopped (s : Int) : Except Panic Bool :=
  if wstatus s = 127 then (stop_signal s).map fun sg => decide (sg ≠ SIGCONT)
  else .ok false

/-- Source: `wstatus(status) == 0` -/
def exited (s : Int) : Bool := wstatus s == 0

/-- Source: `wstatus(status) != WSTOPPED && wstatus(status) != 0` -/
def signaled (s : Int) : Bool := decide (wstatus s ≠ 127 ∧ wstatus s ≠ 0)

/-- Source: `Signal::from_c_int(wstatus(status)).unwrap()` -/
def term_signal (s : Int) : Except Panic Signal :=
  unwrapSignal (Signal.from_c_int (wstatus s))

/-- Source: `(status & WCOREFLAG) != 0` with `WCOREFLAG = 0x80` -/
def dumped_core (s : Int) : Bool := decide (128 ≤ s % 256)

/-- The function `decode` (lines 201–228) instantiated with the Darwin `status` module and
the non-Linux `decode_stopped` (line 218–220): the `stopped` and `continued`
predicates themselves consult the signal resolver and may panic. -/
def decode (pid : Pid) (s : Int) : Except Panic WaitStatus :=
  if exited s then
    .ok (.Exited pid (exit_status s))
  else if signaled s then
    (term_signal s).map fun sg => .Signaled pid sg (dumped_core s)
  else
    (stopped s).bind fun stp =>
      if stp then
        (stop_signal s).map fun sg => .Stopped pid sg
      else
        (continued s).bind fun c =>
          if c then .ok (.Continued pid) else .error .assertionFailure

end darwin

/-! ## The other-BSD (freebsd/openbsd/dragonfly/netbsd) `status` module
(lines 154–199) -/

namespace bsd

/-- Source: `status & 0x7F` -/
def wstatus (s : Int) : Int := s % 128

/-- Source: `wstatus(status) == WSTOPPED` with `WSTOPPED = 0x7f` -/
def stopped (s : Int) : Bool := wstatus s == 127

/-- Source: `Signal::from_c_int(status >> 8).unwrap()` -/
def stop_signal (s : Int) : Except Panic Signal :=
  unwrapSignal (Signal.from_c_int (s / 256))

/-- Source: `wstatus(status) != WSTOPPED && wstatus(status) != 0 && status != 0x13` -/
def signaled (s : Int) : Bool :=
  decide (wstatus s ≠ 127 ∧ wstatus s ≠ 0 ∧ s ≠ 19)

/-- Source: `Signal::from_c_int(wstatus(status)).unwrap()` -/
def term_signal (s : Int) : Except Panic Signal :=
  unwrapSignal (Signal.from_c_int (wstatus s))

/-- Source: `wstatus(status) == 0` -/
def exited (s : Int) : Bool := wstatus s == 0

/-- Source: `(status >> 8) as i8` -/
def exit_status (s : Int) : Int := asI8 (s / 256)

/-- Source: `status == 0x13` -/
def continued (s : Int) : Bool := s == 19

/-- Source: `(status & WCOREFLAG) != 0` with `WCOREFLAG = 0x80` -/
def dumped_core (s : Int) : Bool := decide (128 ≤ s % 256)

/-- The function `decode` (lines 201–228) instantiated with the BSD `status` module and the
non-Linux `decode_stopped`. -/
def decode (pid : Pid) (s : Int) : Except Panic WaitStatus :=
  if exited s then
    .ok (.Exited pid (exit_status s))
  else if signaled s then
    (term_signal s).map fun sg => .Signaled pid sg (dumped_core s)
  else if stopped s then
    (stop_signal s).map fun sg => .Stopped pid sg
  else if continued s then
    .ok (.Continued pid)
  else
    .error .assertionFailure

end bsd

/-! ## The target selector `PidGroup` (lines 230–277) -/

/-- The target selector `PidGroup` from the source; the `u32` payloads are embedded as `Nat`
(theorems carry the `< 2^32` range where it matters). -/
inductive PidGroup where
  | ProcessID (pid : Nat)
  | ProcessGroupID (pid : Nat)
  | AnyGroupChild
  | AnyChild
deriving DecidableEq

/-- Rust `u as i32` for a `u32` pattern `u`. -/
def i32_of_u32 (u : Nat) : Int :=
  if u < 2 ^ 31 then (u : Int) else (u : Int) - 2 ^ 32

/-- Rust `x as u32` for an `i32` value `x`, as the natural number bit pattern. -/
def u32_of_i32 (x : Int) : Nat := (x % 2 ^ 32).toNat

/-- Wrapping `i32` negation.  (On `i32::MIN` a debug build of the source would
panic; we model the wrapping release semantics.  No theorem below evaluates the
conversion at that input.) -/
def neg_i32 (x : Int) : Int := (-x + 2 ^ 31) % 2 ^ 32 - 2 ^ 31

/-- Source: `impl From<i32> for PidGroup` (lines 254–266). -/
def PidGroup.from_i32 (pid : Int) : PidGroup :=
  if pid > 0 then .ProcessID (u32_of_i32 pid)
  else if pid < -1 then .ProcessGroupID (u32_of_i32 (neg_i32 pid))
  else if pid = 0 then .AnyGroupChild
  else .AnyChild

/-- Source: `impl Into<i32> for PidGroup` (lines 268–277). -/
def PidGroup.into_i32 : PidGroup → Int
  | .ProcessID pid => i32_of_u32 pid
  | .ProcessGroupID pid => neg_i32 (i32_of_u32 pid)
  | .AnyGroupChild => 0
  | .AnyChild => -1

/-- The set of Linux/Android status words the kernel can hand to `waitpid`, per
the spec's description of the bit layout (§4.3): an exit code shifted into bits
8–15; a terminating signal number in the low 7 bits with the core-dump flag in
bit 7; the stop discriminant `0x7F` in the low byte with the stop signal in
bits 8–15 and a ptrace event value in bits 16+; or the continue marker
`0xFFFF`.  Signal numbers on Linux are `1 ..= 64`. -/
def linuxKernelStatus (s : Int) : Prop :=
  (∃ c : Int, 0 ≤ c ∧ c < 256 ∧ s = 256 * c) ∨
  (∃ sig d : Int, 1 ≤ sig ∧ sig ≤ 64 ∧ (d = 0 ∨ d = 128) ∧ s = sig + d) ∨
  (∃ sig ev : Int, 1 ≤ sig ∧ sig ≤ 64 ∧ 0 ≤ ev ∧ ev < 32768 ∧
    s = 127 + 256 * sig + 65536 * ev) ∨
  s = 65535

/-! ## Helper lemmas -/

/-- Bits 8–15 of the word, the two ways the source extracts them:
`(s & 0xFFFF) >> 8` and `(s >> 8) & 0xFF` agree. -/
theorem bits_8_15 (s : Int) : s % 65536 / 256 = s / 256 % 256 := by
  omega

/-- The Linux `signaled` arithmetic trick, reduced to an explicit condition on
the low 7 bits. -/
theorem linux_signaled_eq (s : Int) :
    linux.signaled s = decide (1 ≤ s % 128 ∧ s % 128 ≤ 126) := by
  simp only [linux.signaled, asI8]
  split_ifs with h <;> rw [decide_eq_decide] <;> omega

theorem linux_signaled_true_iff (s : Int) :
    linux.signaled s = true ↔ 1 ≤ s % 128 ∧ s % 128 ≤ 126 := by
  rw [linux_signaled_eq, decide_eq_true_eq]

theorem linux_signaled_false_iff (s : Int) :
    linux.signaled s = false ↔ ¬(1 ≤ s % 128 ∧ s % 128 ≤ 126) := by
  rw [linux_signaled_eq, decide_eq_false_iff_not]

theorem linux_exited_true_iff (s : Int) :
    linux.exited s = true ↔ s % 128 = 0 := by
  simp [linux.exited]

theorem linux_exited_false_iff (s : Int) :
    linux.exited s = false ↔ ¬(s % 128 = 0) := by
  simp [linux.exited]

theorem linux_stopped_true_iff (s : Int) :
    linux.stopped s = true ↔ s % 256 = 127 := by
  simp [linux.stopped]

theorem linux_stopped_false_iff (s : Int) :
    linux.stopped s = false ↔ ¬(s % 256 = 127) := by
  simp [linux.stopped]

theorem linux_continued_true_iff (s : Int) :
    linux.continued s = true ↔ s = 65535 := by
  simp [linux.continued]

theorem linux_continued_false_iff (s : Int) :
    linux.continued s = false ↔ ¬(s = 65535) := by
  simp [linux.continued]

/-! ## Claim theorems -/

/-- C1: on the selected platform (Linux/Android per the cited module), the
classification predicates `exited`, `signaled`, `stopped`, `continued` are
pairwise mutually exclusive on every status word, and collectively exhaustive
on every kernel-producible status word, so each such status falls under
exactly one predicate (trace events being the nonzero-auxiliary sub-case of
`stopped`). -/
theorem linux_classification_exclusive_and_exhaustive (s : Int) :
    (¬(linux.exited s = true ∧ linux.signaled s = true) ∧
     ¬(linux.exited s = true ∧ linux.stopped s = true) ∧
     ¬(linux.exited s = true ∧ linux.continued s = true) ∧
     ¬(linux.signaled s = true ∧ linux.stopped s = true) ∧
     ¬(linux.signaled s = true ∧ linux.continued s = true) ∧
     ¬(linux.stopped s = true ∧ linux.continued s = true)) ∧
    (linuxKernelStatus s →
      linux.exited s = true ∨ linux.signaled s = true ∨
      linux.stopped s = true ∨ linux.continued s = true) := by
  simp only [linux_exited_true_iff, linux_signaled_true_iff, linux_stopped_true_iff,
    linux_continued_true_iff]
  refine ⟨by omega, ?_⟩
  rintro (⟨c, hc0, hc1, rfl⟩ | ⟨sig, d, hs1, hs2, hd, rfl⟩ |
    ⟨sig, ev, hs1, hs2, he0, he1, rfl⟩ | rfl) <;> omega

/-- C1 witness: the exit-shape status `42 << 8` is kernel-producible and is
classified by one of the predicates. -/
theorem linux_classification_witness :
    linux.exited 10752 = true ∨ linux.signaled 10752 = true ∨
    linux.stopped 10752 = true ∨ linux.continued 10752 = true :=
  (linux_classification_exclusive_and_exhaustive 10752).2
    (Or.inl ⟨42, by norm_num⟩)

/-- C2: the Linux/Android `signaled` arithmetic trick
`((((status & 0x7f) + 1) as i8) >> 1) > 0` holds exactly when the low 7 bits
are nonzero and not all-ones, i.e. when `status & 0x7f` lies in `1 ..= 126`. -/
theorem linux_signaled_iff_low7_in_range (s : Int) :
    (linux.signaled s = true ↔ (s % 128 ≠ 0 ∧ s % 128 ≠ 127)) ∧
    (linux.signaled s = true ↔ (1 ≤ s % 128 ∧ s % 128 ≤ 126)) := by
  rw [linux_signaled_true_iff]
  constructor
  · constructor
    · intro h
      omega
    · intro h
      omega
  · exact Iff.rfl

/-- C2 witness: status 9 (terminating signal `SIGKILL`) satisfies the
`signaled` predicate. -/
theorem linux_signaled_iff_witness : linux.signaled 9 = true :=
  (linux_signaled_iff_low7_in_range 9).2.mpr (by norm_num)

/-- C3: `decode` applies the predicates in the fixed order
exited → signaled → stopped → continued (first match wins), and when none of
the four holds it hits `assert!(continued(status))` and aborts with an
assertion failure instead of returning any `WaitStatus` variant. -/
theorem linux_decode_order_and_assert (pid : Pid) (s : Int) :
    (linux.exited s = true →
      linux.decode pid s = .ok (.Exited pid (linux.exit_status s))) ∧
    (linux.exited s = false → linux.signaled s = true →
      linux.decode pid s =
        (linux.term_signal s).map fun sg => .Signaled pid sg (linux.dumped_core s)) ∧
    (linux.exited s = false → linux.signaled s = false → linux.stopped s = true →
      linux.decode pid s = linux.decode_stopped pid s) ∧
    (linux.exited s = false → linux.signaled s = false → linux.stopped s = false →
      linux.continued s = true → linux.decode pid s = .ok (.Continued pid)) ∧
    (linux.exited s = false → linux.signaled s = false → linux.stopped s = false →
      linux.continued s = false → linux.decode pid s = .error .assertionFailure) := by
  refine ⟨fun h1 => ?_, fun h1 h2 => ?_, fun h1 h2 h3 => ?_,
    fun h1 h2 h3 h4 => ?_, fun h1 h2 h3 h4 => ?_⟩ <;>
    simp_all [linux.decode]

/-- C3 witness: the five branches of `decode` exercised on concrete statuses;
in particular the status `0xFF` (low 7 bits all-ones with the core-dump bit
set, not a stop or continue word) matches no predicate and aborts. -/
theorem linux_decode_order_witness :
    linux.decode 1 10752 = .ok (.Exited 1 (linux.exit_status 10752)) ∧
    linux.decode 1 9 =
      ((linux.term_signal 9).map fun sg => .Signaled 1 sg (linux.dumped_core 9)) ∧
    linux.decode 1 4991 = linux.decode_stopped 1 4991 ∧
    linux.decode 1 65535 = .ok (.Continued 1) ∧
    linux.decode 1 255 = .error .assertionFailure :=
  ⟨(linux_decode_order_and_assert 1 10752).1 rfl,
   (linux_decode_order_and_assert 1 9).2.1 rfl rfl,
   (linux_decode_order_and_assert 1 4991).2.2.1 rfl rfl rfl,
   (linux_decode_order_and_assert 1 65535).2.2.2.1 rfl rfl rfl rfl,
   (linux_decode_order_and_assert 1 255).2.2.2.2 rfl rfl rfl rfl⟩

/-- C4 counterexample: status 100 is classified `signaled` (low 7 bits 100,
in `1 ..= 126`) but signal number 100 is outside the resolver's table, and
`decode` aborts through `.unwrap()` (`Panic.unwrapFailed`) instead of
returning an ordinary error value to the caller — indeed the source's
`decode` returns a plain `WaitStatus` and has no error channel at all. -/
theorem unrecognized_signal_aborts_counterexample :
    Signal.from_c_int 100 = none ∧
    NixWait.linux.signaled 100 = true ∧
    NixWait.linux.decode 1 100 = .error .unwrapFailed :=
  ⟨rfl, rfl, rfl⟩

/-- C4 (amended): when the kernel-reported signal number embedded in a
signaled, stopped or (Darwin) stop-discriminant status is not in the
resolver's table, constructing the result panics via `.unwrap()` — a
non-recoverable abort — rather than propagating an ordinary error value. -/
theorem decode_unwrap_panics_on_unrecognized_signal (pid : Pid) (s : Int) :
    (linux.signaled s = true → Signal.from_c_int (s % 128) = none →
      linux.decode pid s = .error .unwrapFailed) ∧
    (s % 256 = 127 → Signal.from_c_int (s / 256 % 256) = none →
      linux.decode pid s = .error .unwrapFailed) ∧
    (s % 128 = 127 → Signal.from_c_int (s / 256) = none →
      darwin.decode pid s = .error .unwrapFailed) := by
  refine ⟨fun hs hn => ?_, fun hst hn => ?_, fun hw hn => ?_⟩
  · have h1 : linux.exited s = false := by
      rw [linux_exited_false_iff]
      have := (linux_signaled_true_iff s).mp hs
      omega
    simp [linux.decode, h1, hs, linux.term_signal, unwrapSignal, hn, Except.map]
  · have h1 : linux.exited s = false := by
      rw [linux_exited_false_iff]
      omega
    have h2 : linux.signaled s = false := by
      rw [linux_signaled_false_iff]
      omega
    have h3 : linux.stopped s = true := by
      rw [linux_stopped_true_iff]
      exact hst
    have hss : linux.stop_signal s = .error .unwrapFailed := by
      rw [linux.stop_signal, bits_8_15, hn]
      rfl
    rcases eq_or_ne (linux.stop_additional s) 0 with h4 | h4 <;>
      simp [linux.decode, h1, h2, h3, linux.decode_stopped, h4, hss, Except.map]
  · have h1 : darwin.exited s = false := by
      simp [darwin.exited, darwin.wstatus, hw]
    have h2 : darwin.signaled s = false := by
      simp [darwin.signaled, darwin.wstatus, hw]
    have hss : darwin.stop_signal s = .error .unwrapFailed := by
      rw [darwin.stop_signal, hn]
      rfl
    simp [darwin.decode, h1, h2, darwin.stopped, darwin.wstatus, hw, hss,
      Except.bind, Except.map]

/-- C4 witness: Linux statuses 126 (signaled) and `0x7F | 100 << 8` (stopped),
and the Darwin status `0x7F | 100 << 8`, all carry the unrecognized signal
number and abort. -/
theorem decode_unwrap_panics_witness :
    linux.decode 1 126 = .error .unwrapFailed ∧
    linux.decode 1 25727 = .error .unwrapFailed ∧
    darwin.decode 1 25727 = .error .unwrapFailed :=
  ⟨(decode_unwrap_panics_on_unrecognized_signal 1 126).1 rfl rfl,
   (decode_unwrap_panics_on_unrecognized_signal 1 25727).2.1 rfl rfl,
   (decode_unwrap_panics_on_unrecognized_signal 1 25727).2.2 rfl rfl⟩

/-- C5: on the Darwin family, a status whose low 7 bits equal the shared stop
discriminant `0x7F` decodes to `Continued(pid)` when the signal encoded in
bits 8 and up is `SIGCONT` (and then never to `Stopped`), and to
`Stopped(pid, signal)` when that signal differs from `SIGCONT`. -/
theorem darwin_stop_discriminant_split (pid : Pid) (s : Int) (sig : Signal)
    (hw : s % 128 = 127) (hsig : Signal.from_c_int (s / 256) = some sig) :
    (sig = SIGCONT →
      darwin.decode pid s = .ok (.Continued pid) ∧
      ∀ t : Signal, darwin.decode pid s ≠ .ok (.Stopped pid t)) ∧
    (sig ≠ SIGCONT → darwin.decode pid s = .ok (.Stopped pid sig)) := by
  have h1 : darwin.exited s = false := by
    simp [darwin.exited, darwin.wstatus, hw]
  have h2 : darwin.signaled s = false := by
    simp [darwin.signaled, darwin.wstatus, hw]
  have hss : darwin.stop_signal s = .ok sig := by
    rw [darwin.stop_signal, hsig]
    rfl
  constructor
  · intro hc
    have hdec : darwin.decode pid s = .ok (.Continued pid) := by
      simp [darwin.decode, h1, h2, darwin.stopped, darwin.continued, darwin.wstatus,
        hw, hss, hc, Except.bind, Except.map]
    refine ⟨hdec, fun t => ?_⟩
    rw [hdec]
    simp
  · intro hc
    simp [darwin.decode, h1, h2, darwin.stopped, darwin.wstatus, hw, hss, hc,
      Except.bind, Except.map]

/-- C5 witness: `0x7F | 19 << 8` (`SIGCONT` is 19 on Darwin) decodes to
`Continued`, and `0x7F | 17 << 8` (`SIGSTOP` is 17 on Darwin) decodes to
`Stopped`. -/
theorem darwin_stop_discriminant_witness :
    darwin.decode 1 4991 = .ok (.Continued 1) ∧
    darwin.decode 1 4479 = .ok (.Stopped 1 ⟨17⟩) :=
  ⟨((darwin_stop_discriminant_split 1 4991 ⟨19⟩ rfl rfl).1 rfl).1,
   (darwin_stop_discriminant_split 1 4479 ⟨17⟩ rfl rfl).2 (by decide)⟩

/-- C6: on the other-BSD family, `continued` holds exactly on the literal
status `0x13`, and `signaled` holds exactly when the low 7 bits are neither
`0` nor `0x7F` and the whole status is not the literal `0x13`. -/
theorem bsd_continued_signaled_characterization (s : Int) :
    (bsd.continued s = true ↔ s = 19) ∧
    (bsd.signaled s = true ↔ (s % 128 ≠ 0 ∧ s % 128 ≠ 127 ∧ s ≠ 19)) := by
  constructor
  · simp [bsd.continued]
  · simp [bsd.signaled, bsd.wstatus]
    tauto

/-- C6 witness: the literal `0x13` satisfies the BSD `continued` predicate. -/
theorem bsd_continued_witness : bsd.continued 19 = true :=
  (bsd_continued_signaled_characterization 19).1.mpr rfl

/-- C7: on Linux/Android, a status whose low byte is `0x7F` satisfies the
`stopped` predicate; its stop signal is read from bits 8–15 and its auxiliary
value from bits 16 and up, and within the stopped branch a zero auxiliary
value decodes to `Stopped(pid, sig)` while a nonzero one decodes to
`PtraceEvent(pid, sig, aux)`. -/
theorem linux_stopped_decode_aux_split (pid : Pid) (s : Int) (sig : Signal)
    (hst : s % 256 = 127) (hsig : Signal.from_c_int (s / 256 % 256) = some sig) :
    linux.stopped s = true ∧
    (s / 65536 = 0 → linux.decode pid s = .ok (.Stopped pid sig)) ∧
    (s / 65536 ≠ 0 →
      linux.decode pid s = .ok (.PtraceEvent pid sig (s / 65536))) := by
  have h1 : linux.exited s = false := by
    rw [linux_exited_false_iff]
    omega
  have h2 : linux.signaled s = false := by
    rw [linux_signaled_false_iff]
    omega
  have h3 : linux.stopped s = true := by
    rw [linux_stopped_true_iff]
    exact hst
  have hss : linux.stop_signal s = .ok sig := by
    rw [linux.stop_signal, bits_8_15, hsig]
    rfl
  refine ⟨h3, fun h4 => ?_, fun h4 => ?_⟩ <;>
    simp [linux.decode, h1, h2, h3, linux.decode_stopped, linux.stop_additional,
      h4, hss, Except.map]

/-- C7 witness: `0x7F | 19 << 8` (stop signal 19, `SIGSTOP` on Linux) with zero
auxiliary bits decodes to `Stopped`, and the same word with auxiliary value 3
in bits 16+ decodes to `PtraceEvent` carrying 3. -/
theorem linux_stopped_decode_witness :
    linux.decode 1 4991 = .ok (.Stopped 1 ⟨19⟩) ∧
    linux.decode 1 201599 = .ok (.PtraceEvent 1 ⟨19⟩ 3) :=
  ⟨(linux_stopped_decode_aux_split 1 4991 ⟨19⟩ rfl rfl).2.1 rfl,
   (linux_stopped_decode_aux_split 1 201599 ⟨19⟩ rfl rfl).2.2 (by decide)⟩

/-- C8: on Linux/Android, a status whose low 7 bits are zero satisfies the
`exited` predicate and decodes to `Exited(pid, code)` with `code` the
(`i8`-reinterpreted) byte in bits 8–15; in particular `42 << 8` decodes to
`Exited(pid, 42)`. -/
theorem linux_exited_decode_code_byte (pid : Pid) (s : Int) (h : s % 128 = 0) :
    linux.exited s = true ∧
    linux.decode pid s = .ok (.Exited pid (asI8 (s / 256 % 256))) ∧
    linux.decode pid 10752 = .ok (.Exited pid 42) := by
  have h1 : linux.exited s = true := (linux_exited_true_iff s).mpr h
  refine ⟨h1, ?_, rfl⟩
  simp only [linux.decode, h1, if_true, linux.exit_status, bits_8_15]

/-- C8 witness: `42 << 8` is an exited status and decodes to `Exited(1, 42)`. -/
theorem linux_exited_decode_witness :
    linux.exited 10752 = true ∧
    linux.decode 1 10752 = .ok (.Exited 1 (asI8 (10752 / 256 % 256))) ∧
    linux.decode 1 10752 = .ok (.Exited 1 42) :=
  linux_exited_decode_code_byte 1 10752 rfl

/-- C9 counterexample: `ProcessGroupID(1)` is a representable identifier value
with no positive/negative sign-bit overlap, yet encoding it gives `-1`, which
decodes to `AnyChild`, not back to `ProcessGroupID(1)`. -/
theorem pidgroup_roundtrip_counterexample :
    PidGroup.into_i32 (.ProcessGroupID 1) = -1 ∧
    PidGroup.from_i32 (PidGroup.into_i32 (.ProcessGroupID 1)) = .AnyChild ∧
    PidGroup.AnyChild ≠ PidGroup.ProcessGroupID 1 := by
  refine ⟨by decide, by decide, by decide⟩

/-- C9 (amended): decoding any `i32` other than `i32::MIN` and re-encoding it
yields the original integer, and encoding a variant then decoding yields the
same variant for `ProcessID(u)` with `1 ≤ u < 2^31`, for `ProcessGroupID(u)`
with `2 ≤ u < 2^31`, and for `AnyGroupChild` and `AnyChild`; outside those
ranges the sign-bit overlap or the documented collapse of `0`/`-1` into the
two special variants (e.g. `ProcessGroupID(1)`, which encodes to `-1`) maps
the value to a different variant. -/
theorem pidgroup_roundtrip_amended (pid : Int) (u : Nat)
    (hlo : -(2 ^ 31) < pid) (hhi : pid < 2 ^ 31) (hu1 : 1 ≤ u) (hu : u < 2 ^ 31) :
    PidGroup.into_i32 (PidGroup.from_i32 pid) = pid ∧
    PidGroup.from_i32 (PidGroup.into_i32 (.ProcessID u)) = .ProcessID u ∧
    (2 ≤ u →
      PidGroup.from_i32 (PidGroup.into_i32 (.ProcessGroupID u)) = .ProcessGroupID u) ∧
    PidGroup.from_i32 (PidGroup.into_i32 .AnyGroupChild) = .AnyGroupChild ∧
    PidGroup.from_i32 (PidGroup.into_i32 .AnyChild) = .AnyChild := by
  refine ⟨?_, ?_, fun hu2 => ?_, by decide, by decide⟩
  · rw [PidGroup.from_i32]
    split_ifs with ha hb hc
    · simp only [PidGroup.into_i32, i32_of_u32, u32_of_i32]
      split_ifs with h <;> omega
    · simp only [PidGroup.into_i32, i32_of_u32, u32_of_i32, neg_i32]
      split_ifs with h <;> omega
    · simp [PidGroup.into_i32, hc]
    · have : pid = -1 := by omega
      simp [PidGroup.into_i32, this]
  · have he : PidGroup.into_i32 (.ProcessID u) = (u : Int) := by
      simp only [PidGroup.into_i32, i32_of_u32]
      rw [if_pos hu]
    rw [he, PidGroup.from_i32, if_pos (by exact_mod_cast hu1)]
    have : u32_of_i32 (u : Int) = u := by
      simp only [u32_of_i32]
      omega
    rw [this]
  · have he : PidGroup.into_i32 (.ProcessGroupID u) = -(u : Int) := by
      simp only [PidGroup.into_i32, i32_of_u32, neg_i32]
      rw [if_pos hu]
      omega
    rw [he, PidGroup.from_i32]
    rw [if_neg (by omega), if_pos (by omega)]
    have : u32_of_i32 (neg_i32 (-(u : Int))) = u := by
      simp only [u32_of_i32, neg_i32]
      omega
    rw [this]

/-- C9 witness: the amended round trips at the process id `5`, the process
id variant `ProcessID(7)` and the group variant `ProcessGroupID(7)`. -/
theorem pidgroup_roundtrip_witness :
    PidGroup.into_i32 (PidGroup.from_i32 5) = 5 ∧
    PidGroup.from_i32 (PidGroup.into_i32 (.ProcessID 7)) = .ProcessID 7 ∧
    PidGroup.from_i32 (PidGroup.into_i32 (.ProcessGroupID 7)) = .ProcessGroupID 7 ∧
    PidGroup.from_i32 (PidGroup.into_i32 .AnyGroupChild) = .AnyGroupChild ∧
    PidGroup.from_i32 (PidGroup.into_i32 .AnyChild) = .AnyChild :=
  have h := pidgroup_roundtrip_amended 5 7 (by norm_num) (by norm_num)
    (by norm_num) (by norm_num)
  ⟨h.1, h.2.1, h.2.2.1 (by norm_num), h.2.2.2.1, h.2.2.2.2⟩

/-- C10: on all three platform families the `Exited` code is the exit-code
byte reinterpreted as a two's-complement `i8`: a kernel exit code
`c ∈ 128 ..= 255` placed in bits 8–15 decodes to `Exited(pid, c - 256)`, a
negative value, never the original unsigned byte. -/
theorem exit_code_i8_reinterpretation (pid : Pid) (c : Int)
    (h1 : 128 ≤ c) (h2 : c < 256) :
    linux.decode pid (256 * c) = .ok (.Exited pid (c - 256)) ∧
    darwin.decode pid (256 * c) = .ok (.Exited pid (c - 256)) ∧
    bsd.decode pid (256 * c) = .ok (.Exited pid (c - 256)) ∧
    c - 256 < 0 := by
  have hL : linux.exited (256 * c) = true := by
    rw [linux_exited_true_iff]
    omega
  have hD : darwin.exited (256 * c) = true := by
    simp only [darwin.exited, darwin.wstatus, beq_iff_eq]
    omega
  have hB : bsd.exited (256 * c) = true := by
    simp only [bsd.exited, bsd.wstatus, beq_iff_eq]
    omega
  refine ⟨?_, ?_, ?_, by omega⟩
  · simp only [linux.decode, hL, if_true, linux.exit_status, asI8]
    rw [if_neg (by omega)]
    norm_num
    omega
  · simp only [darwin.decode, hD, if_true, darwin.exit_status, asI8]
    rw [if_neg (by omega)]
    norm_num
    omega
  · simp only [bsd.decode, hB, if_true, bsd.exit_status, asI8]
    rw [if_neg (by omega)]
    norm_num
    omega

/-- C10 witness: kernel exit code 255 decodes to `Exited(pid, -1)` on all
three families. -/
theorem exit_code_i8_witness :
    linux.decode 1 (256 * 255) = .ok (.Exited 1 (255 - 256)) ∧
    darwin.decode 1 (256 * 255) = .ok (.Exited 1 (255 - 256)) ∧
    bsd.decode 1 (256 * 255) = .ok (.Exited 1 (255 - 256)) ∧
    (255 : Int) - 256 < 0 :=
  exit_code_i8_reinterpretation 1 255 (by norm_num) (by norm_num)

end NixWait
